import Mathlib

/-!
# Verification of the questionnaire statistical pipeline

A shallow embedding of the statistical core of the `portfolio` repository
(`quantitative_analysis/factor_analysis.py` and
`quantitative_analysis/correlation_heatmaps.py`), together with proofs of the
behavioural properties stated in the design specification.

Survey rows are embedded as records over `ℤ`/`ℚ`; pandas DataFrames become
lists of rows; the pandas global random state becomes an explicitly threaded
generator state.  Operations implemented by external libraries
(`factor_analyzer`, `scipy`, `numpy`, pandas internals) are modelled from the
specification's description of them; each such definition carries a doc
comment starting with "Modelled from the spec".
-/

namespace Portfolio

/-- `NUM_FACTORS = 3` in `factor_analysis.py`. -/
def NUM_FACTORS : ℕ := 3

/-- `HIDDEN_THRESHOLD = 50` in `factor_analysis.py`;
`correlation_heatmaps.py` hard-codes the same comparisons `< 51` / `> 50`. -/
def HIDDEN_THRESHOLD : ℤ := 50

/-- The number of question columns `g01 … g12` (`QUESTION_COLS`). -/
def NUM_ITEMS : ℕ := 12

/-- `STUDENT_ROLE_CODE = 2` in `factor_analysis.py`. -/
def STUDENT_ROLE_CODE : ℤ := 2

/-- `FREQUENT_VISITOR_THRESHOLD = 1` in `factor_analysis.py`. -/
def FREQUENT_VISITOR_THRESHOLD : ℤ := 1

/-- One respondent row of the survey matrix: the filtering columns `uloga` and
`cesto`, the grouping columns `formatUp` and `hidden`, and the question
columns `g01 … g12` in their fixed order (a value of `none` is a missing
answer, pandas `NaN`). -/
structure Row where
  uloga : ℤ
  cesto : ℤ
  formatUp : ℤ
  hidden : ℤ
  items : List (Option ℚ)
deriving DecidableEq

/-- A row of the working grid `matrix[['formatUp', 'hidden'] + QUESTION_COLS]`
built at the start of `prepare_format_groups`. -/
structure GridRow where
  formatUp : ℤ
  hidden : ℤ
  items : List (Option ℚ)
deriving DecidableEq

/-- Column selection `matrix[['formatUp', 'hidden'] + QUESTION_COLS]`. -/
def toGridRow (r : Row) : GridRow :=
  ⟨r.formatUp, r.hidden, r.items⟩

/-- `filter_data` (both scripts): keep students (`uloga == 2`) who visit
frequently (`cesto > 1`). -/
def filter_data (matrix : List Row) : List Row :=
  (matrix.filter (fun r => decide (r.uloga = STUDENT_ROLE_CODE))).filter
    (fun r => decide (FREQUENT_VISITOR_THRESHOLD < r.cesto))

/-- Group-1 predicate: `(formatUp == 1) & (hidden < HIDDEN_THRESHOLD + 1)`. -/
def cond1 (g : GridRow) : Bool :=
  decide (g.formatUp = 1) && decide (g.hidden < HIDDEN_THRESHOLD + 1)

/-- Group-2 predicate: `(formatUp == 1) & (hidden > HIDDEN_THRESHOLD)`. -/
def cond2 (g : GridRow) : Bool :=
  decide (g.formatUp = 1) && decide (HIDDEN_THRESHOLD < g.hidden)

/-- Group-3 predicate: `(formatUp == 2) & (hidden < HIDDEN_THRESHOLD + 1)`. -/
def cond3 (g : GridRow) : Bool :=
  decide (g.formatUp = 2) && decide (g.hidden < HIDDEN_THRESHOLD + 1)

/-- Group-4 predicate: `(formatUp == 2) & (hidden > HIDDEN_THRESHOLD)`. -/
def cond4 (g : GridRow) : Bool :=
  decide (g.formatUp = 2) && decide (HIDDEN_THRESHOLD < g.hidden)

/-- The four group predicates of `prepare_format_groups`, in order. -/
def conditions : List (GridRow → Bool) :=
  [cond1, cond2, cond3, cond4]

/-- `prepare_format_groups` (both scripts): build the working grid, filter it
once per predicate — each filter runs over the original grid, not over a
previously produced group — and drop the `formatUp`/`hidden` columns from
every group, leaving only the 12 item columns. -/
def prepare_format_groups (matrix : List Row) : List (List (List (Option ℚ))) :=
  let grid := matrix.map toGridRow
  conditions.map (fun c => (grid.filter c).map GridRow.items)

/-- `np.triu_indices(n, k=1)`: the index pairs of the strict upper triangle of
an `n × n` matrix, in row-major order. -/
def triuIndices (n : ℕ) : List (ℕ × ℕ) :=
  (List.range n).flatMap
    (fun i => ((List.range n).filter (fun j => decide (i < j))).map (fun j => (i, j)))

/-- `get_upper_triangle` (`correlation_heatmaps.py`), on the underlying value
array: read the entries of the square matrix `df` at `np.triu_indices(n, k=1)`
as a flat sequence. -/
def get_upper_triangle (df : List (List ℚ)) : List ℚ :=
  (triuIndices df.length).map (fun p => (df.getD p.1 []).getD p.2 0)

/-! ## The pipeline of `factor_analysis.main` -/

/-- A question row is complete when no item is missing. -/
def rowComplete (r : List (Option ℚ)) : Bool :=
  r.all Option.isSome

/-- `dropna` over the question columns: keep the complete rows and strip the
`Option` wrapper. -/
def completeCases (rows : List (List (Option ℚ))) : List (List ℚ) :=
  (rows.filter rowComplete).map List.reduceOption

/-- The failure kind of the adequacy diagnostics. -/
inductive AdequacyError where
  | insufficientRows
deriving DecidableEq

/-- Modelled from the spec: the output of `calculate_bartlett_sphericity` and
`calculate_kmo` (external `factor_analyzer` library, not part of the
repository).  The specification describes the statistics as pure functions of
the complete-case item matrix, so the report records that matrix — the data
the chi-square, p-value and KMO are computed from. -/
structure AdequacyReport where
  cases : List (List ℚ)
deriving DecidableEq

/-- `perform_adequacy_tests` (`factor_analysis.py`): select the question
columns, drop incomplete rows, and run the adequacy statistics on the result.
The external statistics themselves are modelled from the spec: "requires at
least (items + 1) complete rows; fewer rows is a fatal precondition for this
component"; the function in `src` performs no row-count validation of its
own. -/
def perform_adequacy_tests (matrix : List Row) : Except AdequacyError AdequacyReport :=
  let faktor := completeCases (matrix.map Row.items)
  if faktor.length < NUM_ITEMS + 1 then .error .insufficientRows
  else .ok ⟨faktor⟩

/-- Modelled from the spec: `FactorAnalyzer(..., impute='drop').fit` (external
library) drops rows with missing values before extraction.  For the pipeline
claims only the matrix each group's factor analysis is fitted to matters, so
`perform_factor_analysis` is recorded as that list of complete-case
matrices, one per group. -/
def perform_factor_analysis_inputs (groups : List (List (List (Option ℚ)))) :
    List (List (List ℚ)) :=
  groups.map completeCases

/-- The observable outcome of one run of `factor_analysis.main`: the input CSV
is external, so the pipeline is a function of the loaded row list.  `noData`
is the early return after `filter_data`; `emptyGroupAbort` is the early
return when some format group is empty; `adequacyFailed` is an uncaught
failure inside `perform_adequacy_tests`; `done` carries the adequacy report
and the per-group matrices handed to the factor analyses. -/
inductive PipelineOutcome where
  | noData
  | emptyGroupAbort
  | adequacyFailed (e : AdequacyError)
  | done (adequacy : AdequacyReport) (analyses : List (List (List ℚ)))
deriving DecidableEq

/-- `main` (`factor_analysis.py`): filter, partition into format groups,
return early when the filtered data or any group is empty, then run the
adequacy tests once on the pooled filtered matrix and the factor analysis on
every group.  An exception in the adequacy tests propagates: nothing after it
runs. -/
def mainPipeline (matrix : List Row) : PipelineOutcome :=
  let filtered := filter_data matrix
  if filtered.isEmpty then .noData
  else
    let groups := prepare_format_groups filtered
    if groups.any List.isEmpty then .emptyGroupAbort
    else
      match perform_adequacy_tests filtered with
      | .error e => .adequacyFailed e
      | .ok rep => .done rep (perform_factor_analysis_inputs groups)

/-- The complete-case matrix the adequacy statistics were computed from, when
the pipeline reached them and they succeeded. -/
def PipelineOutcome.adequacyCases : PipelineOutcome → Option (List (List ℚ))
  | .done rep _ => some rep.cases
  | _ => none

/-! ## The bootstrap estimator of `correlation_heatmaps.py` -/

/-- Modelled from the spec: the pseudo-random source ("random seed (optional,
for reproducibility)").  The code draws from pandas/numpy's ambient global
random state; the embedding makes that state explicit as a linear
congruential generator threaded through every draw. -/
structure RNG where
  state : ℕ
deriving DecidableEq

/-- One draw: advance the congruential generator and return the fresh state
as the drawn number. -/
def RNG.next (r : RNG) : ℕ × RNG :=
  let s := (r.state * 1664525 + 1013904223) % 4294967296
  (s, ⟨s⟩)

/-- Draw `k` distinct rows without replacement: each draw removes the selected
row from the pool. -/
def pickRows : ℕ → List (List ℚ) → RNG → List (List ℚ) × RNG
  | 0, _, rng => ([], rng)
  | k + 1, rows, rng =>
    if rows.isEmpty then ([], rng)
    else
      let (x, rng1) := rng.next
      let i := x % rows.length
      let r := rows.getD i []
      let (rs, rng2) := pickRows k (rows.take i ++ rows.drop (i + 1)) rng1
      (r :: rs, rng2)

/-- Modelled from the spec: `DataFrame.sample(frac=0.6)` (pandas, external):
"draw a random subset of rows, without replacement, at a fixed proportion of
each matrix's row count" — here `⌊3·n/5⌋` of the `n` rows, using the random
source. -/
def sampleRows (rows : List (List ℚ)) (rng : RNG) : List (List ℚ) × RNG :=
  pickRows (3 * rows.length / 5) rows rng

/-- The sign of the concordance of two paired observations, the elementary
step of Kendall's tau. -/
def concordance (p q : ℚ × ℚ) : ℤ :=
  let d := (p.1 - q.1) * (p.2 - q.2)
  if 0 < d then 1 else if d < 0 then -1 else 0

/-- Modelled from the spec: "compute a rank correlation between the two
fingerprint sequences" (`scipy.stats.kendalltau`, external): Kendall's tau of
the paired sequences, (concordant − discordant) divided by the number of
pairs, and `0` when there are no pairs. -/
def kendallTau (xs ys : List ℚ) : ℚ :=
  let ps := xs.zip ys
  let idx := triuIndices ps.length
  let s : ℤ := (idx.map (fun p => concordance (ps.getD p.1 (0, 0)) (ps.getD p.2 (0, 0)))).sum
  if idx.length = 0 then 0 else (s : ℚ) / (idx.length : ℚ)

/-- Column `j` of a row-major matrix. -/
def column (m : List (List ℚ)) (j : ℕ) : List ℚ :=
  m.map (fun r => r.getD j 0)

/-- Modelled from the spec: `DataFrame.corr(method='kendall')` (pandas,
external): the square matrix of pairwise Kendall correlations between the
`ncols` item columns, "using the same item ordering". -/
def corrKendall (ncols : ℕ) (m : List (List ℚ)) : List (List ℚ) :=
  (List.range ncols).map
    (fun i => (List.range ncols).map (fun j => kendallTau (column m i) (column m j)))

/-- `bootstrap_correlation` (`correlation_heatmaps.py`): resample both
matrices at fraction 0.6, build each resample's Kendall correlation matrix,
and rank-correlate the two strict-upper-triangle fingerprints.  The ambient
global random state enters as `rng` and leaves advanced. -/
def bootstrap_correlation (ncols : ℕ) (mat1 mat2 : List (List ℚ)) (rng : RNG) : ℚ × RNG :=
  let (df1, rng1) := sampleRows mat1 rng
  let (df2, rng2) := sampleRows mat2 rng1
  let corr_m1 := corrKendall ncols df1
  let corr_m2 := corrKendall ncols df2
  (kendallTau (get_upper_triangle corr_m1) (get_upper_triangle corr_m2), rng2)

/-- The list comprehension `[bootstrap_correlation(forms[a], forms[b]) for _
in range(n_iterations)]`: `k` iterations threading the global random
state. -/
def bootstrapSamples (ncols : ℕ) (mat1 mat2 : List (List ℚ)) :
    ℕ → RNG → List ℚ × RNG
  | 0, rng => ([], rng)
  | k + 1, rng =>
    let (v, rng1) := bootstrap_correlation ncols mat1 mat2 rng
    let (vs, rng2) := bootstrapSamples ncols mat1 mat2 k rng1
    (v :: vs, rng2)

/-- The failure kinds of the bootstrap analysis.  `invalidConfiguration` is
the validation failure the specification's error taxonomy names; the code
never produces it.  `emptyPercentile` is `np.percentile` raising on an empty
sample list. -/
inductive BootError where
  | emptyPercentile
  | invalidConfiguration
deriving DecidableEq

/-- Modelled from the spec: `np.percentile(xs, q)` (numpy, external): the
linearly interpolated `q`-th percentile of the sample list; numpy raises on
an empty list. -/
def percentile (xs : List ℚ) (q : ℚ) : Except BootError ℚ :=
  if xs.isEmpty then .error .emptyPercentile
  else
    let s := xs.insertionSort (fun a b => decide (a ≤ b))
    let pos := q * ((s.length : ℚ) - 1) / 100
    let i := pos.floor
    let lo := s.getD i.toNat 0
    let hi := s.getD (min (i.toNat + 1) (s.length - 1)) 0
    .ok (lo + (hi - lo) * (pos - (i : ℚ)))

/-- `np.mean`. -/
def np_mean (xs : List ℚ) : ℚ :=
  xs.sum / (xs.length : ℚ)

/-- One printed line of `run_bootstrap_analysis`: the 2.5th percentile, the
mean, and the 97.5th percentile of one bootstrap run's samples. -/
structure BootSummary where
  ciLow : ℚ
  sampleMean : ℚ
  ciHigh : ℚ
deriving DecidableEq

/-- Summarise one bootstrap run exactly in the order the f-string evaluates:
2.5th percentile first (so an empty sample list fails there), then the mean,
then the 97.5th percentile. -/
def summarize (samples : List ℚ) : Except BootError BootSummary := do
  let lo ← percentile samples (5 / 2)
  let m := np_mean samples
  let hi ← percentile samples (195 / 2)
  return ⟨lo, m, hi⟩

/-- The pair loop `for a in range(4): for b in range(a, 4):`. -/
def formatPairs : List (ℕ × ℕ) :=
  (List.range 4).flatMap
    (fun a => ((List.range 4).filter (fun b => decide (a ≤ b))).map (fun b => (a, b)))

/-- The body of `run_bootstrap_analysis` over an explicit pair list: for each
pair, a first bootstrap run of `n` iterations is drawn and summarised, then a
second run continues from the random state the first one left. -/
def runPairs (ncols : ℕ) (forms : List (List (List ℚ))) (n : ℤ) :
    List (ℕ × ℕ) → RNG → Except BootError (List (BootSummary × BootSummary) × RNG)
  | [], rng => .ok ([], rng)
  | (a, b) :: ps, rng =>
    let (s1, rng1) := bootstrapSamples ncols (forms.getD a []) (forms.getD b []) n.toNat rng
    match summarize s1 with
    | .error e => .error e
    | .ok sum1 =>
      let (s2, rng2) := bootstrapSamples ncols (forms.getD a []) (forms.getD b []) n.toNat rng1
      match summarize s2 with
      | .error e => .error e
      | .ok sum2 =>
        match runPairs ncols forms n ps rng2 with
        | .error e => .error e
        | .ok (rest, rng3) => .ok ((sum1, sum2) :: rest, rng3)

/-- `run_bootstrap_analysis(forms, n_iterations=1000)`
(`correlation_heatmaps.py`): the double pair loop with two consecutive
bootstrap runs per pair.  `n_iterations` is a Python integer; `range` of a
non-positive count is empty, and no validation of `n_iterations` exists in
the source. -/
def run_bootstrap_analysis (ncols : ℕ) (forms : List (List (List ℚ)))
    (n_iterations : ℤ) (rng : RNG) : Except BootError (List (BootSummary × BootSummary)) :=
  (runPairs ncols forms n_iterations formatPairs rng).map Prod.fst

/-! ## The runtime type check of `get_upper_triangle` -/

/-- The Python values `get_upper_triangle` can receive: a numpy array, a
pandas DataFrame wrapping a value array, or any other object (the `tag`
stands for which other object it is). -/
inductive PyValue where
  | ndarray (a : List (List ℚ))
  | dataframe (d : List (List ℚ))
  | other (tag : ℕ)
deriving DecidableEq

/-- The Python exception kinds the checked function can raise. -/
inductive PyError where
  | typeError
deriving DecidableEq

/-- `get_upper_triangle` with its leading type dispatch: a DataFrame is
replaced by its `.values` array, anything that is neither a DataFrame nor an
ndarray raises `TypeError`, before any index computation. -/
def get_upper_triangle_checked : PyValue → Except PyError (List ℚ)
  | .ndarray a => .ok (get_upper_triangle a)
  | .dataframe d => .ok (get_upper_triangle d)
  | .other _ => .error .typeError

/-! ## Object-identity model for in-place mutation

Whether a pandas call mutates its receiver is invisible in a value-level
embedding, so the frame claims are proved over an explicit object heap:
every DataFrame is a heap cell, `.copy()` and other producing calls allocate
fresh cells, and `drop(..., inplace=True)` writes to an existing cell. -/

/-- A DataFrame object: its rows and whether the `formatUp`/`hidden` columns
have been dropped (`drop(['formatUp', 'hidden'], axis=1)`). -/
structure Frame where
  auxDropped : Bool
  rows : List GridRow
deriving DecidableEq

/-- The object heap: cell `i` holds the `i`-th allocated DataFrame. -/
abbrev Heap := List Frame

/-- Allocate a fresh cell (`.copy()`, or any call returning a new frame). -/
def Heap.alloc (h : Heap) (f : Frame) : ℕ × Heap :=
  (h.length, h ++ [f])

/-- Overwrite an existing cell (`inplace=True`). -/
def Heap.write (h : Heap) (r : ℕ) (f : Frame) : Heap :=
  h.set r f

/-- Read a cell. -/
def Heap.read (h : Heap) (r : ℕ) : Option Frame :=
  h[r]?

/-- `group = grid[condition].copy()` followed by
`group.drop(['formatUp', 'hidden'], axis=1, inplace=True)`: allocate the
filtered copy, then mutate that fresh cell in place. -/
def allocGroup (h : Heap) (rows : List GridRow) (c : GridRow → Bool) : ℕ × Heap :=
  let (g, h1) := h.alloc ⟨false, rows.filter c⟩
  (g, h1.write g ⟨true, rows.filter c⟩)

/-- `prepare_format_groups` at the object level (`factor_analysis.py` lines
104–125): `grid = matrix[cols].copy()` allocates the grid, then each group is
a fresh filtered copy whose auxiliary columns are dropped in place.  The
input cell `matRef` is only read. -/
def prepareFormatGroupsH (h : Heap) (matRef : ℕ) : List ℕ × Heap :=
  let input := (h.read matRef).getD ⟨false, []⟩
  let (_, h1) := h.alloc ⟨false, input.rows⟩
  let (g1, h2) := allocGroup h1 input.rows cond1
  let (g2, h3) := allocGroup h2 input.rows cond2
  let (g3, h4) := allocGroup h3 input.rows cond3
  let (g4, h5) := allocGroup h4 input.rows cond4
  ([g1, g2, g3, g4], h5)

/-- Whether a grid row is complete in its item columns. -/
def gridRowComplete (g : GridRow) : Bool :=
  rowComplete g.items

/-- `perform_adequacy_tests` at the object level (`factor_analysis.py` lines
140–143): `grid = matrix[cols].copy()` allocates, `faktor = grid.dropna()`
allocates again; the input cell is only read. -/
def performAdequacyH (h : Heap) (matRef : ℕ) : ℕ × Heap :=
  let input := (h.read matRef).getD ⟨false, []⟩
  let (_, h1) := h.alloc ⟨input.auxDropped, input.rows⟩
  let (faktor, h2) := h1.alloc ⟨input.auxDropped, input.rows.filter gridRowComplete⟩
  (faktor, h2)

/-- `bootstrap_correlation` at the object level (`correlation_heatmaps.py`
lines 55–62): `mat1.sample(frac=0.6)` and `mat2.sample(frac=0.6)` allocate
the two resampled frames; the inputs are only read.  (The correlation
matrices derived afterwards are further fresh objects and never touch the
inputs.) -/
def bootstrapCorrelationH (h : Heap) (ref1 ref2 : ℕ) (rng : RNG) :
    (ℕ × ℕ) × Heap × RNG :=
  let m1 := (h.read ref1).getD ⟨false, []⟩
  let m2 := (h.read ref2).getD ⟨false, []⟩
  let (d1, rng1) := sampleRows (m1.rows.map (fun g => g.items.reduceOption)) rng
  let (s1, h1) := h.alloc ⟨m1.auxDropped, (d1.map (fun r => ⟨0, 0, r.map some⟩ : List ℚ → GridRow))⟩
  let (d2, rng2) := sampleRows (m2.rows.map (fun g => g.items.reduceOption)) rng1
  let (s2, h2) := h1.alloc ⟨m2.auxDropped, (d2.map (fun r => ⟨0, 0, r.map some⟩ : List ℚ → GridRow))⟩
  ((s1, s2), h2, rng2)

/-- Modelled from the spec: `FactorAnalyzer(..., impute='drop').fit(group)`
(external library): fitting drops incomplete rows on an internal copy — a
fresh allocation — and only reads the group frame. -/
def factorFitH (h : Heap) (groupRef : ℕ) : ℕ × Heap :=
  let g := (h.read groupRef).getD ⟨false, []⟩
  let (c, h1) := h.alloc ⟨g.auxDropped, g.rows.filter gridRowComplete⟩
  (c, h1)

/-! ## The factor extraction engine

`FactorAnalyzer` (external `factor_analyzer` library) is not part of the
repository, so its outputs are modelled from the specification over real
symmetric matrices. -/

/-- Modelled from the spec: `FactorAnalyzer.get_eigenvalues` — "the *full*
eigenvalue spectrum (not just the top k) for diagnostic/scree use, in
descending order, computed from the same correlation matrix": the multiset of
eigenvalues of the Hermitian matrix `A`, sorted descending. -/
noncomputable def fullSpectrum {n : ℕ} (A : Matrix (Fin n) (Fin n) ℝ)
    (hA : A.IsHermitian) : List ℝ :=
  ((List.finRange n).map hA.eigenvalues).insertionSort (· ≥ ·)

/-- Modelled from the spec: the loadings matrix of `FactorAnalyzer.fit` —
"eigenvector scaled by square root of corresponding eigenvalue" for each of
the `NUM_FACTORS` retained factors, as a row-major (items × factorCount)
table.  Which eigenpair a factor column retains (the top-k selection) and the
subsequent varimax rotation permute and recombine columns without changing
the shape, so factor `j` is taken here at eigenpair index `j` (a zero column
when `j ≥ n`). -/
noncomputable def loadingsMatrix {n : ℕ} (A : Matrix (Fin n) (Fin n) ℝ)
    (hA : A.IsHermitian) : List (List ℝ) :=
  (List.finRange n).map (fun i =>
    (List.range NUM_FACTORS).map (fun j =>
      if h : j < n then
        Real.sqrt (hA.eigenvalues ⟨j, h⟩) * hA.eigenvectorBasis ⟨j, h⟩ i
      else 0))

/-- A row that survives `filter_data` but whose `formatUp` is 3: no format
group predicate matches it. -/
def strayRow : Row :=
  ⟨2, 2, 3, 0, []⟩

/-- A filtered row of group 1 (single page, order A). -/
def g1Row : Row :=
  ⟨2, 2, 1, 0, [some 1]⟩

/-- One complete filtered row in each of the four format groups. -/
def fourGroupRows : List Row :=
  [⟨2, 2, 1, 0, List.replicate 12 (some 1)⟩,
   ⟨2, 2, 1, 51, List.replicate 12 (some 1)⟩,
   ⟨2, 2, 2, 0, List.replicate 12 (some 1)⟩,
   ⟨2, 2, 2, 51, List.replicate 12 (some 1)⟩]

/-- Sixteen complete filtered rows, four in each format group — enough for
the pooled matrix to pass the 13-complete-row adequacy threshold. -/
def sixteenRows : List Row :=
  fourGroupRows ++ fourGroupRows ++ fourGroupRows ++ fourGroupRows

/-- A concrete 4-row, 3-item matrix for exercising the bootstrap
estimator. -/
def bootMat : List (List ℚ) :=
  [[1, 2, 3], [2, 1, 5], [3, 7, 2], [4, 4, 8]]

/-! ## Theorems -/

section Theorems

lemma conds_cover (g : GridRow) (hf : g.formatUp = 1 ∨ g.formatUp = 2) :
    (cond1 g).toNat + (cond2 g).toNat + (cond3 g).toNat + (cond4 g).toNat = 1 := by
  simp only [cond1, cond2, cond3, cond4, HIDDEN_THRESHOLD]
  have h51 : g.hidden < 50 + 1 ∨ 50 < g.hidden := by omega
  rcases hf with h | h <;> rcases h51 with h2 | h2 <;> rw [h]
  · have h3 : ¬ (50 : ℤ) < g.hidden := by omega
    simp [h2, h3]
    omega
  · have h3 : ¬ g.hidden < (50 : ℤ) + 1 := by omega
    simp [h2, h3]
    omega
  · have h3 : ¬ (50 : ℤ) < g.hidden := by omega
    simp [h2, h3]
    omega
  · have h3 : ¬ g.hidden < (50 : ℤ) + 1 := by omega
    simp [h2, h3]
    omega

lemma conds_disjoint (g : GridRow) :
    (cond1 g).toNat + (cond2 g).toNat + (cond3 g).toNat + (cond4 g).toNat ≤ 1 := by
  by_cases h1 : g.formatUp = 1
  · exact le_of_eq (conds_cover g (Or.inl h1))
  · by_cases h2 : g.formatUp = 2
    · exact le_of_eq (conds_cover g (Or.inr h2))
    · simp [cond1, cond2, cond3, cond4, h1, h2]

lemma four_filter_length {α : Type} (c1 c2 c3 c4 : α → Bool) (l : List α)
    (h : ∀ g ∈ l, (c1 g).toNat + (c2 g).toNat + (c3 g).toNat + (c4 g).toNat = 1) :
    (l.filter c1).length + (l.filter c2).length + (l.filter c3).length
      + (l.filter c4).length = l.length := by
  induction l with
  | nil => simp
  | cons a t ih =>
    have ha := h a (by simp)
    have ht := ih (fun g hg => h g (by simp [hg]))
    by_cases h1 : c1 a <;> by_cases h2 : c2 a <;> by_cases h3 : c3 a <;> by_cases h4 : c4 a <;>
      simp only [h1, h2, h3, h4, Bool.toNat_true, Bool.toNat_false] at ha <;>
      simp [List.filter_cons, h1, h2, h3, h4] <;>
      omega

/-- **C2** (amended): the four predicates of `prepare_format_groups` are
evaluated against the original filtered row set and are pairwise disjoint;
when every filtered row has `formatUp ∈ {1, 2}` the four group sizes sum
exactly to the input's row count; and every group is the item-column
restriction (auxiliary columns dropped) of a filter of the original grid. -/
theorem C2_partition (m : List Row)
    (hf : ∀ r ∈ m, r.formatUp = 1 ∨ r.formatUp = 2) :
    (prepare_format_groups m).length = 4 ∧
    ((prepare_format_groups m).map List.length).sum = m.length ∧
    (∀ g : GridRow,
      (cond1 g).toNat + (cond2 g).toNat + (cond3 g).toNat + (cond4 g).toNat ≤ 1) ∧
    prepare_format_groups m
      = conditions.map (fun c => ((m.map toGridRow).filter c).map GridRow.items) := by
  refine ⟨by simp [prepare_format_groups, conditions], ?_, conds_disjoint, rfl⟩
  have hgrid : ∀ g ∈ m.map toGridRow,
      (cond1 g).toNat + (cond2 g).toNat + (cond3 g).toNat + (cond4 g).toNat = 1 := by
    intro g hg
    rcases List.mem_map.mp hg with ⟨r, hr, rfl⟩
    exact conds_cover _ (hf r hr)
  have hlen := four_filter_length cond1 cond2 cond3 cond4 (m.map toGridRow) hgrid
  simp only [prepare_format_groups, conditions, List.map_cons, List.map_nil,
    List.length_map, List.sum_cons, List.sum_nil]
  rw [List.length_map] at hlen
  omega

/-- Witness for `C2_partition` at a one-row group-1 matrix. -/
theorem C2_partition_witness :
    (∀ r ∈ [g1Row], r.formatUp = 1 ∨ r.formatUp = 2) ∧
    ((prepare_format_groups [g1Row]).length = 4 ∧
    ((prepare_format_groups [g1Row]).map List.length).sum = [g1Row].length ∧
    (∀ g : GridRow,
      (cond1 g).toNat + (cond2 g).toNat + (cond3 g).toNat + (cond4 g).toNat ≤ 1) ∧
    prepare_format_groups [g1Row]
      = conditions.map (fun c => (([g1Row].map toGridRow).filter c).map GridRow.items)) :=
  ⟨by decide, C2_partition [g1Row] (by decide)⟩

/-- **C2** counterexample: a filtered one-row matrix with `formatUp = 3`
matches no predicate, so the four group sizes sum to 0, not to the input's
row count 1 — the four predicates are not collectively exhaustive over
arbitrary filtered inputs. -/
theorem C2_counterexample :
    filter_data [strayRow] = [strayRow] ∧
    ((prepare_format_groups [strayRow]).map List.length).sum = 0 ∧
    [strayRow].length = 1 := by
  decide

lemma length_filter_lt (n i : ℕ) :
    ((List.range n).filter (fun j => decide (i < j))).length = n - i - 1 := by
  induction n with
  | zero => simp
  | succ m ih =>
    rw [List.range_succ, List.filter_append, List.length_append, ih]
    by_cases h : i < m
    · simp [h]
      omega
    · simp [h]
      omega

lemma sum_map_congr_succ (l : List ℕ) (f g : ℕ → ℕ) (h : ∀ i ∈ l, f i = g i + 1) :
    (l.map f).sum = (l.map g).sum + l.length := by
  induction l with
  | nil => simp
  | cons a t ih =>
    simp only [List.map_cons, List.sum_cons, List.length_cons]
    rw [h a (by simp), ih (fun i hi => h i (by simp [hi]))]
    omega

lemma sum_range_sub (n : ℕ) :
    2 * ((List.range n).map (fun i => n - i - 1)).sum = n * (n - 1) := by
  induction n with
  | zero => simp
  | succ m ih =>
    rw [List.range_succ, List.map_append, List.sum_append]
    have h1 : ((List.range m).map (fun i => m + 1 - i - 1)).sum
        = ((List.range m).map (fun i => m - i - 1)).sum + m := by
      have h2 := sum_map_congr_succ (List.range m)
        (fun i => m + 1 - i - 1) (fun i => m - i - 1)
        (fun i hi => by
          have h5 := List.mem_range.mp hi
          show m + 1 - i - 1 = m - i - 1 + 1
          omega)
      simpa using h2
    have h3 : m * (m - 1) + 2 * m = (m + 1) * m := by
      rcases m with _ | k
      · simp
      · simp only [Nat.succ_sub_one]
        ring
    simp only [List.map_cons, List.map_nil, List.sum_cons, List.sum_nil]
    rw [h1]
    have e1 : m + 1 - m - 1 = 0 := by omega
    rw [e1]
    have e2 : m + 1 - 1 = m := by omega
    rw [e2]
    linarith [ih, h3]

lemma triuIndices_length (n : ℕ) : (triuIndices n).length = n * (n - 1) / 2 := by
  have h : (triuIndices n).length = ((List.range n).map (fun i => n - i - 1)).sum := by
    rw [triuIndices, List.length_flatMap]
    simp only [Function.comp_def, List.length_map, length_filter_lt]
  have h2 := sum_range_sub n
  omega

lemma mem_triuIndices {n : ℕ} (p : ℕ × ℕ) :
    p ∈ triuIndices n ↔ p.1 < p.2 ∧ p.2 < n := by
  rcases p with ⟨i, j⟩
  simp only [triuIndices, List.mem_flatMap, List.mem_map, List.mem_filter, List.mem_range,
    decide_eq_true_eq]
  constructor
  · rintro ⟨a, ha, b, ⟨hb, hab⟩, heq⟩
    cases heq
    exact ⟨hab, hb⟩
  · rintro ⟨hij, hj⟩
    exact ⟨i, lt_trans hij hj, j, ⟨hj, hij⟩, rfl⟩

lemma nodup_triuIndices (n : ℕ) : (triuIndices n).Nodup := by
  rw [triuIndices, List.nodup_flatMap]
  refine ⟨fun i _ => ?_, ?_⟩
  · exact ((List.nodup_range n).filter _).map (fun a b h => congrArg Prod.snd h)
  · refine (List.pairwise_lt_range n).imp ?_
    intro a b hab x hx1 hx2
    rcases List.mem_map.mp hx1 with ⟨j1, _, rfl⟩
    rcases List.mem_map.mp hx2 with ⟨j2, _, heq⟩
    exact absurd (congrArg Prod.fst heq).symm (Nat.ne_of_lt hab)

/-- **C3**: for a square `n × n` correlation matrix, `get_upper_triangle`
returns exactly the strictly-upper-triangular entries as a flat sequence of
`n·(n−1)/2` values — the visited index pairs are distinct, contain no
diagonal pair, and never contain a pair together with its symmetric
mirror. -/
theorem C3_upper_triangle_fingerprint (df : List (List ℚ)) (_hn : 2 ≤ df.length) :
    (get_upper_triangle df).length = df.length * (df.length - 1) / 2 ∧
    get_upper_triangle df
      = (triuIndices df.length).map (fun p => (df.getD p.1 []).getD p.2 0) ∧
    (triuIndices df.length).Nodup ∧
    (∀ p : ℕ × ℕ, p ∈ triuIndices df.length ↔ p.1 < p.2 ∧ p.2 < df.length) ∧
    (∀ p ∈ triuIndices df.length, p.1 ≠ p.2) ∧
    (∀ p ∈ triuIndices df.length, (p.2, p.1) ∉ triuIndices df.length) := by
  refine ⟨?_, rfl, nodup_triuIndices _, fun p => mem_triuIndices p, ?_, ?_⟩
  · rw [get_upper_triangle, List.length_map, triuIndices_length]
  · intro p hp
    exact Nat.ne_of_lt ((mem_triuIndices p).mp hp).1
  · intro p hp hmirror
    have h1 := ((mem_triuIndices p).mp hp).1
    have h2 := ((mem_triuIndices (p.2, p.1)).mp hmirror).1
    exact absurd (lt_trans h1 h2) (lt_irrefl _)

/-- Witness for `C3_upper_triangle_fingerprint` at a concrete 2 × 2
correlation matrix. -/
theorem C3_witness :
    (2 ≤ ([[1, 1/2], [1/2, 1]] : List (List ℚ)).length) ∧
    ((get_upper_triangle [[1, 1/2], [1/2, 1]]).length
        = ([[1, 1/2], [1/2, 1]] : List (List ℚ)).length
          * (([[1, 1/2], [1/2, 1]] : List (List ℚ)).length - 1) / 2 ∧
    get_upper_triangle [[1, 1/2], [1/2, 1]]
      = (triuIndices ([[1, 1/2], [1/2, 1]] : List (List ℚ)).length).map
          (fun p => (([[1, 1/2], [1/2, 1]] : List (List ℚ)).getD p.1 []).getD p.2 0) ∧
    (triuIndices ([[1, 1/2], [1/2, 1]] : List (List ℚ)).length).Nodup ∧
    (∀ p : ℕ × ℕ, p ∈ triuIndices ([[1, 1/2], [1/2, 1]] : List (List ℚ)).length
        ↔ p.1 < p.2 ∧ p.2 < ([[1, 1/2], [1/2, 1]] : List (List ℚ)).length) ∧
    (∀ p ∈ triuIndices ([[1, 1/2], [1/2, 1]] : List (List ℚ)).length, p.1 ≠ p.2) ∧
    (∀ p ∈ triuIndices ([[1, 1/2], [1/2, 1]] : List (List ℚ)).length,
        (p.2, p.1) ∉ triuIndices ([[1, 1/2], [1/2, 1]] : List (List ℚ)).length)) :=
  ⟨by decide, C3_upper_triangle_fingerprint [[1, 1/2], [1/2, 1]] (by decide)⟩

/-- **C10**: `get_upper_triangle` raises `TypeError` on every input that is
neither an ndarray nor a DataFrame, and on a DataFrame it computes exactly
what it computes on the DataFrame's underlying value array. -/
theorem C10_type_dispatch :
    (∀ t : ℕ, get_upper_triangle_checked (.other t) = .error .typeError) ∧
    (∀ d : List (List ℚ),
      get_upper_triangle_checked (.dataframe d) = .ok (get_upper_triangle d) ∧
      get_upper_triangle_checked (.dataframe d) = get_upper_triangle_checked (.ndarray d)) :=
  ⟨fun _ => rfl, fun _ => ⟨rfl, rfl⟩⟩

/-- **C4** (amended): when the filtered matrix is non-empty and any format
group is empty, `main` reports the condition and aborts the whole run —
`return` before the adequacy tests — so no downstream analysis runs for any
group, empty or not. -/
theorem C4_empty_group_aborts (m : List Row)
    (h1 : ¬ (filter_data m).isEmpty)
    (h2 : (prepare_format_groups (filter_data m)).any List.isEmpty) :
    mainPipeline m = .emptyGroupAbort := by
  unfold mainPipeline
  simp [h1, h2]

/-- Witness for `C4_empty_group_aborts` at a one-row input. -/
theorem C4_witness :
    ((¬ (filter_data [g1Row]).isEmpty) ∧
      (prepare_format_groups (filter_data [g1Row])).any List.isEmpty) ∧
    mainPipeline [g1Row] = .emptyGroupAbort :=
  ⟨⟨by decide, by decide⟩, C4_empty_group_aborts [g1Row] (by decide) (by decide)⟩

/-- **C4** counterexample: a filtered matrix whose group 1 is non-empty while
groups 2–4 are empty.  The claim says the pipeline skips only the empty
groups and completes the analyses of the non-empty ones; the code instead
returns `emptyGroupAbort` — no adequacy report and no analysis is produced
for any group, including the non-empty group 1. -/
theorem C4_counterexample :
    mainPipeline [g1Row] = .emptyGroupAbort ∧
    (prepare_format_groups (filter_data [g1Row])).getD 0 [] ≠ [] ∧
    (mainPipeline [g1Row]).adequacyCases = none := by
  decide

/-- **C5** (amended): with fewer complete pooled rows than `items + 1` the
adequacy statistics fail — and because `main` calls them once on the pooled
filtered matrix with no per-component error handling, the failure aborts the
remainder of the pipeline: no factor analysis runs for any group. -/
theorem C5_insufficient_rows_aborts (m : List Row)
    (h1 : ¬ (filter_data m).isEmpty)
    (h2 : ¬ (prepare_format_groups (filter_data m)).any List.isEmpty)
    (h3 : (completeCases ((filter_data m).map Row.items)).length < NUM_ITEMS + 1) :
    mainPipeline m = .adequacyFailed .insufficientRows := by
  unfold mainPipeline perform_adequacy_tests
  simp [h1, h2, h3]

/-- Witness for `C5_insufficient_rows_aborts`: four complete rows, one per
group — all groups non-empty, 4 < 13 complete pooled rows. -/
theorem C5_witness :
    ((¬ (filter_data fourGroupRows).isEmpty) ∧
      (¬ (prepare_format_groups (filter_data fourGroupRows)).any List.isEmpty) ∧
      (completeCases ((filter_data fourGroupRows).map Row.items)).length < NUM_ITEMS + 1) ∧
    mainPipeline fourGroupRows = .adequacyFailed .insufficientRows :=
  ⟨⟨by decide, by decide, by decide⟩,
    C5_insufficient_rows_aborts fourGroupRows (by decide) (by decide) (by decide)⟩

/-- **C5** counterexample: four complete rows, one per group.  The adequacy
precondition fails (4 < 13 complete rows) as the claim says, but the failure
is not contained to the adequacy component: the whole run ends in
`adequacyFailed` even though every group is non-empty, so the claimed
"without aborting the rest of the pipeline" is false — no factor analysis
output exists for any group. -/
theorem C5_counterexample :
    mainPipeline fourGroupRows = .adequacyFailed .insufficientRows ∧
    (¬ (prepare_format_groups (filter_data fourGroupRows)).any List.isEmpty) := by
  decide

/-- **C9** (amended): whenever the pipeline produces an adequacy report, the
complete-case matrix the sphericity chi-square, p-value and KMO are computed
from is the *pooled* filtered matrix — `perform_adequacy_tests` is called
exactly once, on `filtered_matrix`, never on a group's own matrix. -/
theorem C9_adequacy_on_pooled (m : List Row) :
    (mainPipeline m).adequacyCases = none ∨
    (mainPipeline m).adequacyCases
      = some (completeCases ((filter_data m).map Row.items)) := by
  unfold mainPipeline
  by_cases h1 : (filter_data m).isEmpty
  · simp [h1, PipelineOutcome.adequacyCases]
  · by_cases h2 : (prepare_format_groups (filter_data m)).any List.isEmpty
    · simp [h1, h2, PipelineOutcome.adequacyCases]
    · unfold perform_adequacy_tests
      by_cases h3 : (completeCases ((filter_data m).map Row.items)).length < NUM_ITEMS + 1
      · simp [h1, h2, h3, PipelineOutcome.adequacyCases]
      · simp [h1, h2, h3, PipelineOutcome.adequacyCases]

/-- **C9** counterexample: sixteen filtered rows, four per group.  The run
completes, and its adequacy report was computed from the pooled 16-row
complete-case matrix — which differs from the complete-case matrix of group
1 (4 rows), so the adequacy diagnostics were not computed per group. -/
theorem C9_counterexample :
    (mainPipeline sixteenRows).adequacyCases
      = some (completeCases ((filter_data sixteenRows).map Row.items)) ∧
    completeCases ((filter_data sixteenRows).map Row.items)
      ≠ completeCases ((prepare_format_groups (filter_data sixteenRows)).getD 0 []) := by
  decide

lemma trace_eq_sum_eigenvalues {n : ℕ} (A : Matrix (Fin n) (Fin n) ℝ)
    (hA : A.IsHermitian) : A.trace = ∑ i, hA.eigenvalues i := by
  have h := congrArg Matrix.trace hA.spectral_theorem
  rw [Matrix.trace_mul_cycle,
    (Matrix.mem_unitaryGroup_iff').mp hA.eigenvectorUnitary.2, one_mul,
    Matrix.trace_diagonal] at h
  simpa [RCLike.ofReal_real_eq_id] using h

/-- **C1**: for an `n`-item correlation matrix (real symmetric, unit
diagonal), the full eigenvalue spectrum returned by the factor extraction has
exactly `n` entries, is sorted descending, and sums to `n`; the loadings
matrix has exactly `n × NUM_FACTORS` (items × factorCount, factorCount = 3)
shape. -/
theorem C1_factor_extraction {n : ℕ} (A : Matrix (Fin n) (Fin n) ℝ)
    (hA : A.IsHermitian) (hdiag : ∀ i, A i i = 1) :
    (fullSpectrum A hA).length = n ∧
    (fullSpectrum A hA).Sorted (· ≥ ·) ∧
    (fullSpectrum A hA).sum = (n : ℝ) ∧
    (loadingsMatrix A hA).length = n ∧
    (∀ row ∈ loadingsMatrix A hA, row.length = NUM_FACTORS) := by
  refine ⟨?_, ?_, ?_, ?_, ?_⟩
  · rw [fullSpectrum, List.length_insertionSort, List.length_map, List.length_finRange]
  · exact List.sorted_insertionSort _ _
  · have hperm := List.perm_insertionSort ((· ≥ ·) : ℝ → ℝ → Prop)
      ((List.finRange n).map hA.eigenvalues)
    rw [fullSpectrum, hperm.sum_eq, ← Fin.sum_univ_def, ← trace_eq_sum_eigenvalues A hA]
    simp [Matrix.trace, Matrix.diag, hdiag]
  · rw [loadingsMatrix, List.length_map, List.length_finRange]
  · intro row hrow
    rcases List.mem_map.mp hrow with ⟨i, _, rfl⟩
    rw [List.length_map, List.length_range]

/-- Witness for `C1_factor_extraction` at the 2 × 2 identity correlation
matrix. -/
theorem C1_witness :
    (fullSpectrum (1 : Matrix (Fin 2) (Fin 2) ℝ) Matrix.isHermitian_one).length = 2 ∧
    (fullSpectrum (1 : Matrix (Fin 2) (Fin 2) ℝ) Matrix.isHermitian_one).Sorted (· ≥ ·) ∧
    (fullSpectrum (1 : Matrix (Fin 2) (Fin 2) ℝ) Matrix.isHermitian_one).sum = ((2 : ℕ) : ℝ) ∧
    (loadingsMatrix (1 : Matrix (Fin 2) (Fin 2) ℝ) Matrix.isHermitian_one).length = 2 ∧
    (∀ row ∈ loadingsMatrix (1 : Matrix (Fin 2) (Fin 2) ℝ) Matrix.isHermitian_one,
      row.length = NUM_FACTORS) :=
  C1_factor_extraction 1 Matrix.isHermitian_one (fun i => Matrix.one_apply_eq i)

lemma read_alloc_old (h : Heap) (f : Frame) (r : ℕ) (hr : r < h.length) :
    (h.alloc f).2.read r = h.read r := by
  simp [Heap.alloc, Heap.read, List.getElem?_append_left hr]

lemma read_write_old (h : Heap) (i : ℕ) (f : Frame) (r : ℕ) (hne : i ≠ r) :
    (h.write i f).read r = h.read r := by
  simp [Heap.write, Heap.read, List.getElem?_set_ne hne]

lemma read_allocGroup_old (h : Heap) (rows : List GridRow) (c : GridRow → Bool)
    (r : ℕ) (hr : r < h.length) :
    (allocGroup h rows c).2.read r = h.read r := by
  have heq : (allocGroup h rows c).2
      = (h.alloc ⟨false, rows.filter c⟩).2.write h.length ⟨true, rows.filter c⟩ := rfl
  rw [heq, read_write_old _ _ _ _ (Nat.ne_of_gt hr), read_alloc_old _ _ _ hr]

lemma length_allocGroup (h : Heap) (rows : List GridRow) (c : GridRow → Bool) :
    (allocGroup h rows c).2.length = h.length + 1 := by
  simp [allocGroup, Heap.alloc, Heap.write]

/-- **C8**: no core operation mutates its input frame in place.  In the
object-heap model every pre-existing DataFrame cell — in particular the input
`ItemMatrix` — reads back unchanged after group partitioning (whose
`inplace=True` drops hit only freshly copied groups), after the adequacy
tests, after a bootstrap resampling step, and after a factor-analysis fit:
all transformations allocate new frames. -/
theorem C8_no_input_mutation (h : Heap) (matRef ref2 r : ℕ) (rng : RNG)
    (hr : r < h.length) :
    (prepareFormatGroupsH h matRef).2.read r = h.read r ∧
    (performAdequacyH h matRef).2.read r = h.read r ∧
    (bootstrapCorrelationH h matRef ref2 rng).2.1.read r = h.read r ∧
    (factorFitH h matRef).2.read r = h.read r := by
  have lenAlloc : ∀ f : Frame, ((h.alloc f).2).length = h.length + 1 := fun f => by
    simp [Heap.alloc]
  refine ⟨?_, ?_, ?_, ?_⟩
  · show (allocGroup (allocGroup (allocGroup (allocGroup
        (h.alloc ⟨false, ((h.read matRef).getD ⟨false, []⟩).rows⟩).2
        ((h.read matRef).getD ⟨false, []⟩).rows cond1).2
        ((h.read matRef).getD ⟨false, []⟩).rows cond2).2
        ((h.read matRef).getD ⟨false, []⟩).rows cond3).2
        ((h.read matRef).getD ⟨false, []⟩).rows cond4).2.read r = h.read r
    set rows0 := ((h.read matRef).getD ⟨false, []⟩).rows with hrows0
    set H0 := (h.alloc ⟨false, rows0⟩).2 with hH0
    set H1 := (allocGroup H0 rows0 cond1).2 with hH1
    set H2 := (allocGroup H1 rows0 cond2).2 with hH2
    set H3 := (allocGroup H2 rows0 cond3).2 with hH3
    have hl0 : H0.length = h.length + 1 := lenAlloc _
    have hl1 : H1.length = H0.length + 1 := length_allocGroup _ _ _
    have hl2 : H2.length = H1.length + 1 := length_allocGroup _ _ _
    have hl3 : H3.length = H2.length + 1 := length_allocGroup _ _ _
    rw [read_allocGroup_old H3 rows0 cond4 r (by omega), hH3,
      read_allocGroup_old H2 rows0 cond3 r (by omega), hH2,
      read_allocGroup_old H1 rows0 cond2 r (by omega), hH1,
      read_allocGroup_old H0 rows0 cond1 r (by omega), hH0,
      read_alloc_old h _ r hr]
  · show ((h.alloc _).2.alloc _).2.read r = h.read r
    rw [read_alloc_old _ _ _ (by rw [lenAlloc]; omega), read_alloc_old _ _ _ hr]
  · show ((h.alloc _).2.alloc _).2.read r = h.read r
    rw [read_alloc_old _ _ _ (by rw [lenAlloc]; omega), read_alloc_old _ _ _ hr]
  · show (h.alloc _).2.read r = h.read r
    rw [read_alloc_old _ _ _ hr]

/-- Witness for `C8_no_input_mutation` at a one-cell heap. -/
theorem C8_witness :
    (0 < ([⟨false, [⟨1, 0, [some 1]⟩]⟩] : Heap).length) ∧
    ((prepareFormatGroupsH [⟨false, [⟨1, 0, [some 1]⟩]⟩] 0).2.read 0
        = Heap.read [⟨false, [⟨1, 0, [some 1]⟩]⟩] 0 ∧
      (performAdequacyH [⟨false, [⟨1, 0, [some 1]⟩]⟩] 0).2.read 0
        = Heap.read [⟨false, [⟨1, 0, [some 1]⟩]⟩] 0 ∧
      (bootstrapCorrelationH [⟨false, [⟨1, 0, [some 1]⟩]⟩] 0 0 ⟨0⟩).2.1.read 0
        = Heap.read [⟨false, [⟨1, 0, [some 1]⟩]⟩] 0 ∧
      (factorFitH [⟨false, [⟨1, 0, [some 1]⟩]⟩] 0).2.read 0
        = Heap.read [⟨false, [⟨1, 0, [some 1]⟩]⟩] 0) :=
  ⟨by decide, C8_no_input_mutation [⟨false, [⟨1, 0, [some 1]⟩]⟩] 0 0 0 ⟨0⟩ (by decide)⟩

/-- **C7** (amended): the code performs no call-time configuration
validation.  The factor count and resample fraction are fixed constants (3
and 0.6), not call parameters; and an iteration count below 1 is not
rejected up front — the bootstrap loop simply runs zero times and the run
fails only afterwards, when `np.percentile` is evaluated on the empty sample
list of the very first format pair. -/
theorem C7_no_validation (ncols : ℕ) (forms : List (List (List ℚ))) (rng : RNG)
    (n : ℤ) (hn : n < 1) :
    run_bootstrap_analysis ncols forms n rng = .error .emptyPercentile := by
  have h0 : n.toNat = 0 := Int.toNat_of_nonpos (by omega)
  have hfp : formatPairs = ((0, 0) : ℕ × ℕ) ::
      [(0, 1), (0, 2), (0, 3), (1, 1), (1, 2), (1, 3), (2, 2), (2, 3), (3, 3)] := by decide
  rw [run_bootstrap_analysis, hfp, runPairs, h0]
  simp [bootstrapSamples, summarize, percentile, Except.bind, Except.map, Bind.bind]

/-- Witness for `C7_no_validation` at an iteration count of 0. -/
theorem C7_witness :
    ((0 : ℤ) < 1) ∧
    run_bootstrap_analysis 2 [] 0 ⟨0⟩ = .error .emptyPercentile :=
  ⟨by decide, C7_no_validation 2 [] ⟨0⟩ 0 (by decide)⟩

/-- **C7** counterexample: calling the bootstrap analysis with the invalid
iteration count 0 does not fail "at call time, with the invalid value
rejected by validation before any computation begins": the pair loop and the
(empty) resampling loop run, and the failure that surfaces is the empty-list
percentile error of the first pair's aggregation step — not a configuration
validation error. -/
theorem C7_counterexample :
    run_bootstrap_analysis 2 [] 0 ⟨0⟩ = .error .emptyPercentile ∧
    run_bootstrap_analysis 2 [] 0 ⟨0⟩ ≠ .error .invalidConfiguration := by
  refine ⟨rfl, fun hc => ?_⟩
  rw [show run_bootstrap_analysis 2 [] 0 ⟨0⟩ = .error .emptyPercentile from rfl] at hc
  simp at hc

/-- **C6** (amended): `bootstrap_correlation` has no injectable random
source — it draws from the ambient global random state, which every call
advances.  With that state made explicit, the estimator is a pure function
of it: two runs given the *same* state produce identical per-iteration
samples, identical mean, and identical confidence-interval bounds. -/
theorem C6_same_state_reproducible (ncols : ℕ) (m1 m2 : List (List ℚ)) (k : ℕ)
    (r1 r2 : RNG) (h : r1 = r2) :
    (bootstrapSamples ncols m1 m2 k r1).1 = (bootstrapSamples ncols m1 m2 k r2).1 ∧
    np_mean (bootstrapSamples ncols m1 m2 k r1).1
      = np_mean (bootstrapSamples ncols m1 m2 k r2).1 ∧
    percentile (bootstrapSamples ncols m1 m2 k r1).1 (5 / 2)
      = percentile (bootstrapSamples ncols m1 m2 k r2).1 (5 / 2) ∧
    percentile (bootstrapSamples ncols m1 m2 k r1).1 (195 / 2)
      = percentile (bootstrapSamples ncols m1 m2 k r2).1 (195 / 2) := by
  subst h
  exact ⟨rfl, rfl, rfl, rfl⟩

/-- Witness for `C6_same_state_reproducible` at a concrete matrix and
state. -/
theorem C6_witness :
    ((⟨0⟩ : RNG) = (⟨0⟩ : RNG)) ∧
    ((bootstrapSamples 3 bootMat bootMat 1 ⟨0⟩).1
        = (bootstrapSamples 3 bootMat bootMat 1 ⟨0⟩).1 ∧
      np_mean (bootstrapSamples 3 bootMat bootMat 1 ⟨0⟩).1
        = np_mean (bootstrapSamples 3 bootMat bootMat 1 ⟨0⟩).1 ∧
      percentile (bootstrapSamples 3 bootMat bootMat 1 ⟨0⟩).1 (5 / 2)
        = percentile (bootstrapSamples 3 bootMat bootMat 1 ⟨0⟩).1 (5 / 2) ∧
      percentile (bootstrapSamples 3 bootMat bootMat 1 ⟨0⟩).1 (195 / 2)
        = percentile (bootstrapSamples 3 bootMat bootMat 1 ⟨0⟩).1 (195 / 2)) :=
  ⟨rfl, C6_same_state_reproducible 3 bootMat bootMat 1 ⟨0⟩ ⟨0⟩ rfl⟩

/-- **C6** counterexample: the code offers no way to inject the random
source, so the two consecutive bootstrap runs performed for each format pair
in `run_bootstrap_analysis` cannot be given the same draws: the second run
starts from the state the first one left, and on this concrete matrix the
two runs' per-iteration sample lists differ. -/
theorem C6_counterexample :
    (bootstrapSamples 3 bootMat bootMat 1 ⟨3⟩).1
      ≠ (bootstrapSamples 3 bootMat bootMat 1
          (bootstrapSamples 3 bootMat bootMat 1 ⟨3⟩).2).1 := by
  have ha1 : sampleRows bootMat ⟨3⟩ = ([[3, 7, 2], [4, 4, 8]], ⟨2365144877⟩) := by decide
  have ha2 : sampleRows bootMat ⟨2365144877⟩
      = ([[1, 2, 3], [4, 4, 8]], ⟨3345418727⟩) := by decide
  have ha3 : sampleRows bootMat ⟨3345418727⟩
      = ([[3, 7, 2], [2, 1, 5]], ⟨3714889393⟩) := by decide
  have ha4 : sampleRows bootMat ⟨3714889393⟩
      = ([[1, 2, 3], [3, 7, 2]], ⟨1668571147⟩) := by decide
  have hc1 : corrKendall 3 [[3, 7, 2], [4, 4, 8]]
      = [[1, -1, 1], [-1, 1, -1], [1, -1, 1]] := by
    norm_num [corrKendall, kendallTau, column, triuIndices, concordance, List.range_succ]
  have hc2 : corrKendall 3 [[1, 2, 3], [4, 4, 8]]
      = [[1, 1, 1], [1, 1, 1], [1, 1, 1]] := by
    norm_num [corrKendall, kendallTau, column, triuIndices, concordance, List.range_succ]
  have hc3 : corrKendall 3 [[3, 7, 2], [2, 1, 5]]
      = [[1, 1, -1], [1, 1, -1], [-1, -1, 1]] := by
    norm_num [corrKendall, kendallTau, column, triuIndices, concordance, List.range_succ]
  have hc4 : corrKendall 3 [[1, 2, 3], [3, 7, 2]]
      = [[1, 1, -1], [1, 1, -1], [-1, -1, 1]] := by
    norm_num [corrKendall, kendallTau, column, triuIndices, concordance, List.range_succ]
  have ht1 : kendallTau (get_upper_triangle [[1, -1, 1], [-1, 1, -1], [1, -1, 1]])
      (get_upper_triangle [[1, 1, 1], [1, 1, 1], [1, 1, 1]]) = 0 := by
    norm_num [kendallTau, get_upper_triangle, triuIndices, concordance, List.range_succ]
  have ht2 : kendallTau (get_upper_triangle [[1, 1, -1], [1, 1, -1], [-1, -1, 1]])
      (get_upper_triangle [[1, 1, -1], [1, 1, -1], [-1, -1, 1]]) = 2 / 3 := by
    norm_num [kendallTau, get_upper_triangle, triuIndices, concordance, List.range_succ]
  have hbc1 : bootstrap_correlation 3 bootMat bootMat ⟨3⟩ = (0, ⟨3345418727⟩) := by
    unfold bootstrap_correlation
    simp only [ha1, ha2, hc1, hc2, ht1]
  have hbc2 : bootstrap_correlation 3 bootMat bootMat ⟨3345418727⟩
      = (2 / 3, ⟨1668571147⟩) := by
    unfold bootstrap_correlation
    simp only [ha3, ha4, hc3, hc4, ht2]
  have h1 : bootstrapSamples 3 bootMat bootMat 1 ⟨3⟩ = ([0], ⟨3345418727⟩) := by
    simp only [bootstrapSamples, hbc1]
  have h2 : bootstrapSamples 3 bootMat bootMat 1 ⟨3345418727⟩
      = ([2 / 3], ⟨1668571147⟩) := by
    simp only [bootstrapSamples, hbc2]
  rw [h1, h2]
  norm_num

end Theorems

end Portfolio
